import Mathlib

/-!
Shallow embedding of the Aetherium_Automata core: the type-locked `Variable`
representation, the opaque `Code` fragments, the automata graph types
(`State`, `Transition`, `Automata`), the two-pass loader/resolver
(`Automata::parse` in `src/engine/automata_parser.cpp`) and the structural
validator (`src/engine/automata_validator.cpp`).

The concrete document syntax is handled by the external rapidyaml library;
we embed the already-parsed tree as `YNode` (scalars, sequences, mappings).
rapidyaml's contract is that using an invalid node ref (a lookup of a missing
key, reading a value from a container node, reading the key of a keyless
node) raises the library error; those operations are modelled as
`Except.error Err.invalidNode`.  C++ exceptions / library errors abort the
load, modelled with the `Except` monad.
-/

namespace Aetherium

/-- Embedding of the parsed document tree handed to the loader/validator
(the rapidyaml tree): a node is a scalar, a sequence, or a mapping with
string keys in document order. -/
inductive YNode where
  | scalar : String → YNode
  | seq : List YNode → YNode
  | map : List (String × YNode) → YNode

/-- Errors that abort a load.  `invalidNode` stands for any rapidyaml
error raised by using an invalid node ref (missing child, value read from a
container, key read from a keyless node); `unknownAutomataType` is the
`std::runtime_error("Unknown automata type")` thrown at
automata_parser.cpp:148; `typeMismatch` is the
`std::runtime_error("type mismatch")` thrown by `Variable::set`
(automata.hpp:80); `checkFailed` is a failed `RYML_CHECK` in the
validator. -/
inductive Err where
  | invalidNode
  | unknownAutomataType
  | typeMismatch
  | checkFailed
deriving DecidableEq

/-- Mirrors `ConstNodeRef::operator[](key)`: on a mapping, the first child
with the given key; on any other node (or when the key is missing) there is
no child, giving an invalid node ref, modelled as `none`. -/
def YNode.findChild : YNode → String → Option YNode
  | YNode.map es, k => entriesLookup k es
  | _, _ => none
where
  /-- First entry with the given key, as `Tree::find_child` finds the first
  matching child. -/
  entriesLookup (k : String) : List (String × YNode) → Option YNode
    | [] => none
    | e :: rest => if e.1 = k then some e.2 else entriesLookup k rest

/-- Mirrors `ConstNodeRef::has_child`. -/
def YNode.hasChild (n : YNode) (k : String) : Bool :=
  (n.findChild k).isSome

/-- Mirrors `ConstNodeRef::is_map()`. -/
def YNode.isMap : YNode → Bool
  | YNode.map _ => true
  | _ => false

/-- Mirrors iterating `node.children()`: children of a mapping carry their
keys, children of a sequence have none, a scalar has no children. -/
def YNode.childrenKV : YNode → List (Option String × YNode)
  | YNode.scalar _ => []
  | YNode.seq xs => xs.map (fun x => (none, x))
  | YNode.map es => es.map (fun e => (some e.1, e.2))

/-- Mirrors indexed child access plus `num_children` bounded loops over a
variable section: the list of child value nodes. -/
def YNode.childNodes : YNode → List YNode
  | YNode.scalar _ => []
  | YNode.seq xs => xs
  | YNode.map es => es.map (fun e => e.2)

/-- Mirrors `node >> s` / `node.val()`: reading the scalar value of a node.
Reading from an invalid (missing) node or from a container node is a
rapidyaml error. -/
def readVal : Option YNode → Except Err String
  | some (YNode.scalar s) => Except.ok s
  | _ => Except.error Err.invalidNode

/-- Mirrors `node.key()`: the key of a mapping child; reading the key of a
keyless node (e.g. a sequence element) is a rapidyaml error. -/
def keyOf : Option String → Except Err String
  | some k => Except.ok k
  | none => Except.error Err.invalidNode

/-- The `VariableType` enum of automata.hpp:19-25. -/
inductive VariableType where
  | BOOL
  | INT
  | STRING
  | VOID
  | NOT_SET
deriving DecidableEq

/-- The `AutomataType` enum of automata.hpp:27-30. -/
inductive AutomataType where
  | FOLDER
  | INLINE
deriving DecidableEq

/-- The `Variable::Value` variant `std::variant<bool, int, std::string,
Void>` (automata.hpp:39).  C++ `int` is embedded as `Int`; no arithmetic on
it occurs in the loader. -/
inductive Value where
  | vbool : Bool → Value
  | vint : Int → Value
  | vstring : String → Value
  | vvoid : Value
deriving DecidableEq

/-- Mirrors `static_cast<VariableType>(data_.index())`: the position of the
held alternative in the variant, which lines up with the first four enum
tags (automata.hpp:50-52). -/
def Value.kind : Value → VariableType
  | Value.vbool _ => VariableType.BOOL
  | Value.vint _ => VariableType.INT
  | Value.vstring _ => VariableType.STRING
  | Value.vvoid => VariableType.VOID

/-- The `Variable` class (automata.hpp:37-92): a name, the variant payload
`data_` and the lock tag `type_`. -/
structure Variable where
  name : String
  data_ : Value
  type_ : VariableType
deriving DecidableEq

/-- Mirrors the default constructor `Variable() : data_(Void()),
type_(NOT_SET)` (automata.hpp:41); `std::string` default-constructs
empty. -/
def Variable.fresh : Variable :=
  { name := "", data_ := Value.vvoid, type_ := VariableType.NOT_SET }

/-- Mirrors `Variable::type()` (automata.hpp:50-52): computed from the
variant index, not from the lock tag `type_`. -/
def Variable.type (v : Variable) : VariableType :=
  v.data_.kind

/-- Mirrors `Variable::set<T>` (automata.hpp:63-84): the expected tag is
determined by the incoming value's kind; a locked `type_` different from it
throws "type mismatch", otherwise the payload is stored and the type is
locked. -/
def Variable.set (v : Variable) (x : Value) : Except Err Variable :=
  let expected := x.kind
  if expected ≠ v.type_ ∧ v.type_ ≠ VariableType.NOT_SET then
    Except.error Err.typeMismatch
  else
    Except.ok { v with data_ := x, type_ := expected }

/-- Mirrors `Variable::get<T>()` (automata.hpp:57-61): the stored value when
the held alternative matches the requested tag, `none` standing for the
`std::bad_variant_access` failure. -/
def Variable.get? (v : Variable) (t : VariableType) : Option Value :=
  if v.data_.kind = t then some v.data_ else none

/-- Splits a character list at the first ':' as `std::string::find(':')`
plus the two `substr` calls do in `Variable::parse`
(automata_parser.cpp:11-14): `none` when no colon occurs. -/
def splitAtColon : List Char → Option (List Char × List Char)
  | [] => none
  | c :: rest =>
    if c = ':' then some ([], rest)
    else
      match splitAtColon rest with
      | none => none
      | some (a, b) => some (c :: a, b)

/-- Mirrors `Variable::parse` (automata_parser.cpp:7-30): reads the node's
scalar token; `name:type` declarations with type `int`/`bool`/`string` call
`set` with the zero value of that type; an unrecognised type token falls
through with no `set` call at all; a bare token gets the string default. -/
def Variable.parse (v : Variable) (node : YNode) : Except Err Variable :=
  match readVal (some node) with
  | Except.error e => Except.error e
  | Except.ok s =>
    match splitAtColon s.toList with
    | some (nmChars, tyChars) =>
      let v := { v with name := String.mk nmChars }
      if String.mk tyChars = "int" then v.set (Value.vint 0)
      else if String.mk tyChars = "bool" then v.set (Value.vbool false)
      else if String.mk tyChars = "string" then v.set (Value.vstring "")
      else Except.ok v
    | none => Variable.set { v with name := s } (Value.vstring "")

/-- The `Code` class (automata.hpp:94-101): opaque source text plus a
declared return type. -/
structure Code where
  code : String
  returnType : VariableType
deriving DecidableEq

/-- Mirrors `Code::parse` (automata_parser.cpp:48-52) applied to the node a
caller looked up: reads the scalar into `code` (a rapidyaml error when the
node is missing or a container) and sets `returnType = VOID`
unconditionally. -/
def Code.parse (node : Option YNode) : Except Err Code :=
  match readVal node with
  | Except.error e => Except.error e
  | Except.ok s => Except.ok { code := s, returnType := VariableType.VOID }

/-- The `State` class (automata.hpp:103-115).  `on_enter` and `on_exit` are
never parsed by the loader; in C++ they stay default-constructed `Code`
objects with an indeterminate `returnType`, embedded here as `none`. -/
structure State where
  inputs : List Variable
  outputs : List Variable
  variables_ : List Variable
  name : String
  on_enter : Option Code
  on_exit : Option Code
  body : Code
deriving DecidableEq

/-- Runs `Variable v; v.parse(section[i])` over every child of a variable
section (the `inputs`/`outputs`/`variables` loops of
automata_parser.cpp:67-80); iterating a missing section node is a rapidyaml
error. -/
def parseVarList : Option YNode → Except Err (List Variable)
  | none => Except.error Err.invalidNode
  | some n => goList n.childNodes
where
  goList : List YNode → Except Err (List Variable)
    | [] => Except.ok []
    | c :: cs =>
      match Variable.parse Variable.fresh c with
      | Except.error e => Except.error e
      | Except.ok v =>
        match goList cs with
        | Except.error e => Except.error e
        | Except.ok vs => Except.ok (v :: vs)

/-- Mirrors `State::parse` (automata_parser.cpp:58-88): the mapping key
becomes the name (an error for keyless nodes), the `inputs`, `outputs`,
`variables` sections are parsed in that order, then the `code` section
becomes `body`. -/
def State.parse (key : Option String) (node : YNode) : Except Err State :=
  match keyOf key with
  | Except.error e => Except.error e
  | Except.ok nm =>
    match parseVarList (node.findChild "inputs") with
    | Except.error e => Except.error e
    | Except.ok ins =>
      match parseVarList (node.findChild "outputs") with
      | Except.error e => Except.error e
      | Except.ok outs =>
        match parseVarList (node.findChild "variables") with
        | Except.error e => Except.error e
        | Except.ok vars =>
          match Code.parse (node.findChild "code") with
          | Except.error e => Except.error e
          | Except.ok body =>
            Except.ok { inputs := ins, outputs := outs, variables_ := vars,
                        name := nm, on_enter := none, on_exit := none,
                        body := body }

/-- The `Transition` class (automata.hpp:117-128).  `from`/`to` are raw
`State*` pointers into the owning automata's state vector, embedded as
optional indices; they start out unassigned (`State* from; State* to;` are
never initialised before the resolution loop), embedded as `none`.  `body`
is never parsed (automata.hpp:123 TODO), embedded as `none`; `triggered` is
`none` exactly when the document had no `body` entry, in which case the C++
member stays a default-constructed `Code`. -/
structure Transition where
  from_ : Option Nat
  to_ : Option Nat
  condition : Code
  triggered : Option Code
  body : Option Code
  name : String
deriving DecidableEq

/-- Mirrors `Transition::parse` (automata_parser.cpp:94-108): the mapping
key becomes the name, the `condition` section is parsed and its return type
overwritten to BOOL, and an optional `body` section is parsed into
`triggered`. -/
def Transition.parse (key : Option String) (node : YNode) : Except Err Transition :=
  match keyOf key with
  | Except.error e => Except.error e
  | Except.ok nm =>
    match Code.parse (node.findChild "condition") with
    | Except.error e => Except.error e
    | Except.ok c =>
      let condition := { c with returnType := VariableType.BOOL }
      match
        (if node.hasChild "body" then
          match Code.parse (node.findChild "body") with
          | Except.error e => Except.error e
          | Except.ok t => Except.ok (some t)
        else Except.ok (none : Option Code)) with
      | Except.error e => Except.error e
      | Except.ok triggered =>
        Except.ok { from_ := none, to_ := none, condition := condition,
                    triggered := triggered, body := none, name := nm }

/-- The `Automata` class (automata.hpp:130-144). -/
structure Automata where
  states : List State
  transitions : List Transition
  variables_ : List Variable
  version : String
  name : String
  type : AutomataType
  rootPath : String
deriving DecidableEq

/-- The object state established by the `Automata(filePath)` constructor
just before it calls `parse` (automata_parser.cpp:114-127): empty
collections and strings, `type` assigned `FOLDER` at line 125. -/
def Automata.init : Automata :=
  { states := [], transitions := [], variables_ := [], version := "",
    name := "", type := AutomataType.FOLDER, rootPath := "" }

/-- Runs a per-element parser over a list of children in document order,
aborting at the first error, as the `for` loops of `Automata::parse` do. -/
def parseAll (f : α → Except Err β) : List α → Except Err (List β)
  | [] => Except.ok []
  | x :: xs =>
    match f x with
    | Except.error e => Except.error e
    | Except.ok y =>
      match parseAll f xs with
      | Except.error e => Except.error e
      | Except.ok ys => Except.ok (y :: ys)

/-- Mirrors iterating `node.children()` where `node` came from a plain
lookup: iterating an invalid (missing) node is a rapidyaml error. -/
def childrenEntriesE : Option YNode → Except Err (List (Option String × YNode))
  | none => Except.error Err.invalidNode
  | some n => Except.ok n.childrenKV

/-- Mirrors the reference-resolution loop of `Automata::parse`
(automata_parser.cpp:172-179): a full scan over the state vector assigning
the pointer at every name match, so the last matching index wins; `none`
when no state matches (the C++ pointer then keeps its previous —
indeterminate — value). -/
def resolveIdxFrom (i : Nat) (nm : String) : List State → Option Nat
  | [] => none
  | s :: rest =>
    match resolveIdxFrom (i + 1) nm rest with
    | some j => some j
    | none => if s.name = nm then some i else none

/-- Resolution over the whole state vector, starting at index 0. -/
def resolveIdx (states : List State) (nm : String) : Option Nat :=
  resolveIdxFrom 0 nm states

/-- Mirrors the body of the transition loop of `Automata::parse`
(automata_parser.cpp:161-180): `Transition::parse`, then the `from` and
`to` scalars are read and resolved by linear lookup against the
already-parsed states. -/
def parseOneTransition (sts : List State) (e : Option String × YNode) :
    Except Err Transition :=
  match Transition.parse e.1 e.2 with
  | Except.error er => Except.error er
  | Except.ok t =>
    match readVal (e.2.findChild "from") with
    | Except.error er => Except.error er
    | Except.ok fromName =>
      match readVal (e.2.findChild "to") with
      | Except.error er => Except.error er
      | Except.ok toName =>
        Except.ok { t with from_ := resolveIdx sts fromName,
                           to_ := resolveIdx sts toName }

/-- Pass A of `Automata::parse` (automata_parser.cpp:156-159): every child
of the `states` section is parsed into a `State` in document order. -/
def parseStates (am : YNode) : Except Err (List State) :=
  match childrenEntriesE (am.findChild "states") with
  | Except.error e => Except.error e
  | Except.ok es => parseAll (fun e => State.parse e.1 e.2) es

/-- Pass B of `Automata::parse` (automata_parser.cpp:161-181): every child
of the `transitions` section is parsed and resolved against the states from
Pass A. -/
def parseTransitions (sts : List State) (am : YNode) : Except Err (List Transition) :=
  match childrenEntriesE (am.findChild "transitions") with
  | Except.error e => Except.error e
  | Except.ok es => parseAll (parseOneTransition sts) es

/-- Mirrors the `version` step of `Automata::parse`
(automata_parser.cpp:134-136): `node["version"]` on a missing key yields an
invalid ref whose `is_keyval()` is a rapidyaml error; a present scalar entry
is read, any other shape is skipped. -/
def Automata.parseVersion (a : Automata) (node : YNode) : Except Err Automata :=
  match node.findChild "version" with
  | none => Except.error Err.invalidNode
  | some (YNode.scalar s) => Except.ok { a with version := s }
  | some _ => Except.ok a

/-- Mirrors the `config` step of `Automata::parse`
(automata_parser.cpp:138-150): when the `config` entry is a mapping, `name`
then `type` are read; "inline" sets INLINE, "folder" sets FOLDER and reads
`location` into `rootPath`, anything else throws "Unknown automata type".
A missing `config` key makes the `is_map()` probe a rapidyaml error; a
non-mapping `config` skips the whole block. -/
def Automata.parseConfig (a : Automata) (node : YNode) : Except Err Automata :=
  match node.findChild "config" with
  | none => Except.error Err.invalidNode
  | some c =>
    match c with
    | YNode.map _ =>
      match readVal (c.findChild "name") with
      | Except.error e => Except.error e
      | Except.ok nm =>
        match readVal (c.findChild "type") with
        | Except.error e => Except.error e
        | Except.ok ts =>
          if ts = "inline" then
            Except.ok { a with name := nm, type := AutomataType.INLINE }
          else if ts = "folder" then
            match readVal (c.findChild "location") with
            | Except.error e => Except.error e
            | Except.ok loc =>
              Except.ok { a with name := nm, type := AutomataType.FOLDER,
                                 rootPath := loc }
          else Except.error Err.unknownAutomataType
    | _ => Except.ok a

/-- Mirrors the `automata` step of `Automata::parse`
(automata_parser.cpp:152-182): when the `automata` entry is a mapping, Pass
A parses the states and Pass B parses and resolves the transitions.  A
missing `automata` key makes the `is_map()` probe a rapidyaml error; a
non-mapping entry skips the block. -/
def Automata.parseGraph (a : Automata) (node : YNode) : Except Err Automata :=
  match node.findChild "automata" with
  | none => Except.error Err.invalidNode
  | some am =>
    match am with
    | YNode.map _ =>
      match parseStates am with
      | Except.error e => Except.error e
      | Except.ok sts =>
        match parseTransitions sts am with
        | Except.error e => Except.error e
        | Except.ok ts =>
          Except.ok { a with states := sts, transitions := ts }
    | _ => Except.ok a

/-- Mirrors `Automata::parse` (automata_parser.cpp:129-185): `states`,
`transitions` and `variables` are cleared first, then the version, config
and automata sections are processed in order.  A C++ exception anywhere
aborts the load with no usable `Automata`, modelled by `Except.error`. -/
def Automata.parse (a : Automata) (node : YNode) : Except Err Automata :=
  match
    Automata.parseVersion
      { a with states := [], transitions := [], variables_ := [] } node with
  | Except.error e => Except.error e
  | Except.ok a1 =>
    match a1.parseConfig node with
    | Except.error e => Except.error e
    | Except.ok a2 => a2.parseGraph node

/-- Mirrors `AutomataValidator::validate`
(src/engine/automata_validator.cpp:6-24) applied to the already-parsed root
tree: four `RYML_CHECK`s, each raising the rapidyaml check error when it
fails, then `return true`.  The function never returns `false`. -/
def AutomataValidator.validate (root : YNode) : Except Err Bool :=
  if !root.isMap then Except.error Err.checkFailed
  else if !root.hasChild "config" then Except.error Err.checkFailed
  else if !root.hasChild "automata" then Except.error Err.checkFailed
  else if !root.hasChild "version" then Except.error Err.checkFailed
  else Except.ok true

/-- A state body that declares empty `inputs`/`outputs`/`variables`
sections and an empty `code` scalar. -/
def emptyStateBody : YNode :=
  YNode.map [("inputs", YNode.seq []), ("outputs", YNode.seq []),
             ("variables", YNode.seq []), ("code", YNode.scalar "")]

/-- The §8 scenario document as claimed: `config.type: folder`,
`config.location: "/defs"`, states `idle` and `active` with empty bodies
(`{}`), one transition `go` — completed with a `version` scalar and a
`config.name` so that nothing besides the empty state bodies is unusual. -/
def scenarioDocEmptyBodies : YNode :=
  YNode.map [("version", YNode.scalar "1"),
    ("config", YNode.map [("name", YNode.scalar "m"),
                          ("type", YNode.scalar "folder"),
                          ("location", YNode.scalar "/defs")]),
    ("automata", YNode.map [
      ("states", YNode.map [("idle", YNode.map []), ("active", YNode.map [])]),
      ("transitions", YNode.map [("go", YNode.map [
          ("condition", YNode.scalar "true"),
          ("from", YNode.scalar "idle"), ("to", YNode.scalar "active")])])])]

/-- The §8 scenario document with each state body carrying the
`inputs`/`outputs`/`variables`/`code` sub-sections the parser demands. -/
def scenarioDoc : YNode :=
  YNode.map [("version", YNode.scalar "1"),
    ("config", YNode.map [("name", YNode.scalar "m"),
                          ("type", YNode.scalar "folder"),
                          ("location", YNode.scalar "/defs")]),
    ("automata", YNode.map [
      ("states", YNode.map [("idle", emptyStateBody), ("active", emptyStateBody)]),
      ("transitions", YNode.map [("go", YNode.map [
          ("condition", YNode.scalar "true"),
          ("from", YNode.scalar "idle"), ("to", YNode.scalar "active")])])])]

/-- The `State` the loader produces from `emptyStateBody` under a given
name. -/
def emptyLoadedState (nm : String) : State :=
  { inputs := [], outputs := [], variables_ := [], name := nm,
    on_enter := none, on_exit := none,
    body := { code := "", returnType := VariableType.VOID } }

/-- The `Automata` the loader produces from `scenarioDoc`. -/
def scenarioLoaded : Automata :=
  { states := [emptyLoadedState "idle", emptyLoadedState "active"],
    transitions := [{ from_ := some 0, to_ := some 1,
                      condition := { code := "true", returnType := VariableType.BOOL },
                      triggered := none, body := none, name := "go" }],
    variables_ := [], version := "1", name := "m",
    type := AutomataType.FOLDER, rootPath := "/defs" }

/-- A well-formed document whose single transition names a `from` state
(`ghost`) that matches no parsed state. -/
def ghostFromDoc : YNode :=
  YNode.map [("version", YNode.scalar "1"),
    ("config", YNode.map [("name", YNode.scalar "m"),
                          ("type", YNode.scalar "inline")]),
    ("automata", YNode.map [
      ("states", YNode.map [("s1", emptyStateBody)]),
      ("transitions", YNode.map [("t1", YNode.map [
          ("condition", YNode.scalar "true"),
          ("from", YNode.scalar "ghost"), ("to", YNode.scalar "s1")])])])]

/-- The `Automata` the loader produces from `ghostFromDoc`: the transition
is present with its `from` reference left unbound. -/
def ghostFromLoaded : Automata :=
  { states := [emptyLoadedState "s1"],
    transitions := [{ from_ := none, to_ := some 0,
                      condition := { code := "true", returnType := VariableType.BOOL },
                      triggered := none, body := none, name := "t1" }],
    variables_ := [], version := "1", name := "m",
    type := AutomataType.INLINE, rootPath := "" }

/-- A document whose `config` mapping carries an unknown `type` but no
`name` entry. -/
def noNameBadTypeDoc : YNode :=
  YNode.map [("version", YNode.scalar "1"),
    ("config", YNode.map [("type", YNode.scalar "weird")]),
    ("automata", YNode.map [("states", YNode.map []),
                            ("transitions", YNode.map [])])]

/-- A document whose `config` mapping carries a `name` and an unknown
`type`. -/
def badTypeDoc : YNode :=
  YNode.map [("version", YNode.scalar "1"),
    ("config", YNode.map [("name", YNode.scalar "m"),
                          ("type", YNode.scalar "weird")]),
    ("automata", YNode.map [("states", YNode.map []),
                            ("transitions", YNode.map [])])]

/-- The document position of the i-th transition entry: the i-th child of
the `transitions` section under the `automata` section. -/
def transitionEntryAt (node : YNode) (i : Nat) : Option (Option String × YNode) :=
  match node.findChild "automata" with
  | some am =>
    match am.findChild "transitions" with
    | some tn => tn.childrenKV[i]?
    | none => none
  | none => none

/-- Elements of a successful `parseAll` run come from the corresponding
input positions. -/
theorem parseAll_ok_get {f : α → Except Err β} {xs : List α} {ys : List β}
    (h : parseAll f xs = Except.ok ys) :
    ∀ (i : Nat) (y : β), ys[i]? = some y →
      ∃ x, xs[i]? = some x ∧ f x = Except.ok y := by
  induction xs generalizing ys with
  | nil =>
    unfold parseAll at h
    cases h
    intro i y hy
    simp at hy
  | cons x xs ih =>
    unfold parseAll at h
    cases hx : f x with
    | error e => rw [hx] at h; cases h
    | ok y0 =>
      rw [hx] at h
      cases hrest : parseAll f xs with
      | error e => rw [hrest] at h; cases h
      | ok ys0 =>
        rw [hrest] at h
        cases h
        intro i y hy
        cases i with
        | zero => simp at hy; exact ⟨x, by simp, hy ▸ hx⟩
        | succ j =>
          simp at hy
          obtain ⟨x', hx', hfx'⟩ := ih hrest j y hy
          exact ⟨x', by simpa using hx', hfx'⟩

/-- Every element of a successful `parseAll` run is the image of some input
element. -/
theorem parseAll_ok_mem {f : α → Except Err β} {xs : List α} {ys : List β}
    (h : parseAll f xs = Except.ok ys) :
    ∀ y ∈ ys, ∃ x ∈ xs, f x = Except.ok y := by
  intro y hy
  obtain ⟨i, hi⟩ := List.get_of_mem hy
  have hidx : ys[i.1]? = some y := by
    rw [List.getElem?_eq_getElem i.2]
    simp [← hi, List.get_eq_getElem]
  obtain ⟨x, hx, hfx⟩ := parseAll_ok_get h i.1 y hidx
  exact ⟨x, List.getElem?_mem hx, hfx⟩

/-- When no state carries the sought name, the resolution loop leaves the
reference unassigned. -/
theorem resolveIdxFrom_eq_none {nm : String} {sts : List State}
    (h : ∀ s ∈ sts, s.name ≠ nm) : ∀ i, resolveIdxFrom i nm sts = none := by
  induction sts with
  | nil => intro i; rfl
  | cons s rest ih =>
    intro i
    unfold resolveIdxFrom
    rw [ih (fun x hx => h x (List.mem_cons_of_mem s hx)) (i + 1)]
    simp [h s (List.mem_cons_self s rest)]

/-- `resolveIdx` finds nothing when no state carries the sought name. -/
theorem resolveIdx_eq_none {nm : String} {sts : List State}
    (h : ∀ s ∈ sts, s.name ≠ nm) : resolveIdx sts nm = none :=
  resolveIdxFrom_eq_none h 0

/-- Every successfully parsed `Code` fragment is declared VOID. -/
theorem Code.parse_void {o : Option YNode} {c : Code}
    (h : Code.parse o = Except.ok c) : c.returnType = VariableType.VOID := by
  unfold Code.parse at h
  split at h
  · cases h
  · cases h; rfl

/-- Every successfully parsed `State` has a VOID body and never-parsed
enter/exit hooks. -/
theorem State.parse_body_void {k : Option String} {n : YNode} {s : State}
    (h : State.parse k n = Except.ok s) :
    s.body.returnType = VariableType.VOID ∧ s.on_enter = none ∧ s.on_exit = none := by
  unfold State.parse at h
  split at h
  · cases h
  · split at h
    · cases h
    · split at h
      · cases h
      · split at h
        · cases h
        · split at h
          · cases h
          · next body hbody =>
            cases h
            exact ⟨Code.parse_void hbody, rfl, rfl⟩

/-- Every successfully parsed `Transition` has a BOOL condition, a VOID
`triggered` action when one was parsed, and unassigned references. -/
theorem Transition.parse_shape {k : Option String} {n : YNode} {t : Transition}
    (h : Transition.parse k n = Except.ok t) :
    t.condition.returnType = VariableType.BOOL ∧
      (∀ c, t.triggered = some c → c.returnType = VariableType.VOID) ∧
      t.from_ = none ∧ t.to_ = none := by
  unfold Transition.parse at h
  split at h
  · cases h
  · split at h
    · cases h
    · next c hc =>
      split at h
      · cases h
      · next trg htrg =>
        cases h
        refine ⟨rfl, ?_, rfl, rfl⟩
        intro c0 hc0
        simp only at hc0
        split at htrg
        · split at htrg
          · cases htrg
          · next t0 ht0 =>
            cases htrg
            cases hc0
            exact Code.parse_void ht0
        · cases htrg; cases hc0

/-- Unfolding a successful `parseOneTransition` run. -/
theorem parseOneTransition_elim {sts : List State} {e : Option String × YNode}
    {t : Transition} (h : parseOneTransition sts e = Except.ok t) :
    ∃ t0 fromName toName,
      Transition.parse e.1 e.2 = Except.ok t0 ∧
      readVal (e.2.findChild "from") = Except.ok fromName ∧
      readVal (e.2.findChild "to") = Except.ok toName ∧
      t = { t0 with from_ := resolveIdx sts fromName,
                    to_ := resolveIdx sts toName } := by
  unfold parseOneTransition at h
  split at h
  · cases h
  · next t0 ht0 =>
    split at h
    · cases h
    · next fn hfn =>
      split at h
      · cases h
      · next tn htn =>
        cases h
        exact ⟨t0, fn, tn, ht0, hfn, htn, rfl⟩

/-- A successful `childrenEntriesE` run means the section node existed. -/
theorem childrenEntriesE_ok {o : Option YNode} {es : List (Option String × YNode)}
    (h : childrenEntriesE o = Except.ok es) :
    ∃ n, o = some n ∧ es = n.childrenKV := by
  cases o with
  | none => cases h
  | some n => cases h; exact ⟨n, rfl, rfl⟩

/-- A successful load decomposes into the cleared automata flowing through
the version, config and graph steps. -/
theorem parse_ok_decomp {a a' : Automata} {node : YNode}
    (h : Automata.parse a node = Except.ok a') :
    ∃ a1 a2,
      Automata.parseVersion
        { a with states := [], transitions := [], variables_ := [] } node =
        Except.ok a1 ∧
      Automata.parseConfig a1 node = Except.ok a2 ∧
      Automata.parseGraph a2 node = Except.ok a' := by
  unfold Automata.parse at h
  split at h
  · cases h
  · next a1 h1 =>
    split at h
    · cases h
    · next a2 h2 => exact ⟨a1, a2, h1, h2, h⟩

/-- The version step only writes `version`. -/
theorem parseVersion_ok_preserves {a a' : Automata} {node : YNode}
    (h : Automata.parseVersion a node = Except.ok a') :
    a'.states = a.states ∧ a'.transitions = a.transitions ∧
      a'.variables_ = a.variables_ ∧ a'.name = a.name ∧
      a'.type = a.type ∧ a'.rootPath = a.rootPath := by
  unfold Automata.parseVersion at h
  split at h
  · cases h
  · cases h; exact ⟨rfl, rfl, rfl, rfl, rfl, rfl⟩
  · cases h; exact ⟨rfl, rfl, rfl, rfl, rfl, rfl⟩

/-- The config step only writes `name`, `type` and `rootPath`. -/
theorem parseConfig_ok_preserves {a a' : Automata} {node : YNode}
    (h : Automata.parseConfig a node = Except.ok a') :
    a'.states = a.states ∧ a'.transitions = a.transitions ∧
      a'.variables_ = a.variables_ ∧ a'.version = a.version := by
  unfold Automata.parseConfig at h
  split at h
  · cases h
  · split at h
    · split at h
      · cases h
      · split at h
        · cases h
        · split at h
          · cases h; exact ⟨rfl, rfl, rfl, rfl⟩
          · split at h
            · split at h
              · cases h
              · cases h; exact ⟨rfl, rfl, rfl, rfl⟩
            · cases h
    · cases h; exact ⟨rfl, rfl, rfl, rfl⟩

/-- The graph step only writes `states` and `transitions`. -/
theorem parseGraph_ok_meta {a a' : Automata} {node : YNode}
    (h : Automata.parseGraph a node = Except.ok a') :
    a'.variables_ = a.variables_ ∧ a'.version = a.version ∧
      a'.name = a.name ∧ a'.type = a.type ∧ a'.rootPath = a.rootPath := by
  unfold Automata.parseGraph at h
  split at h
  · cases h
  · split at h
    · split at h
      · cases h
      · split at h
        · cases h
        · cases h; exact ⟨rfl, rfl, rfl, rfl, rfl⟩
    · cases h; exact ⟨rfl, rfl, rfl, rfl, rfl⟩

/-- Unfolding a successful graph step: either the `automata` entry is not a
mapping and the automata passes through unchanged, or both passes ran and
their results were installed. -/
theorem parseGraph_ok_elim {a a' : Automata} {node : YNode}
    (h : Automata.parseGraph a node = Except.ok a') :
    ∃ am, node.findChild "automata" = some am ∧
      ((am.isMap = false ∧ a' = a) ∨
        (∃ sts ts, am.isMap = true ∧ parseStates am = Except.ok sts ∧
          parseTransitions sts am = Except.ok ts ∧
          a' = { a with states := sts, transitions := ts })) := by
  unfold Automata.parseGraph at h
  split at h
  · cases h
  · next am ham =>
    refine ⟨am, ham, ?_⟩
    split at h
    · next es hes =>
      split at h
      · cases h
      · next sts hsts =>
        split at h
        · cases h
        · next ts hts =>
          cases h
          exact Or.inr ⟨sts, ts, by simp [YNode.isMap], hsts, hts, rfl⟩
    · next hnotmap =>
      cases h
      refine Or.inl ⟨?_, rfl⟩
      cases am with
      | scalar s => rfl
      | seq xs => rfl
      | map es => exact absurd rfl (hnotmap es)

/-- No variant alternative maps to the NOT_SET tag. -/
theorem Value.kind_ne_not_set (x : Value) : x.kind ≠ VariableType.NOT_SET := by
  cases x <;> simp [Value.kind]

/-- Splitting a list with a distinguished first colon. -/
theorem splitAtColon_append {l : List Char} (r : List Char) (h : ':' ∉ l) :
    splitAtColon (l ++ ':' :: r) = some (l, r) := by
  induction l with
  | nil => simp [splitAtColon]
  | cons c cs ih =>
    have hc : c ≠ ':' := fun hcc => h (hcc ▸ List.mem_cons_self c cs)
    have hcs : ':' ∉ cs := fun hmem => h (List.mem_cons_of_mem c hmem)
    simp only [List.cons_append, splitAtColon, if_neg hc, List.append_eq, ih hcs]

/-- Splitting a colon-free list finds nothing. -/
theorem splitAtColon_eq_none {l : List Char} (h : ':' ∉ l) :
    splitAtColon l = none := by
  induction l with
  | nil => rfl
  | cons c cs ih =>
    have hc : c ≠ ':' := fun hcc => h (hcc ▸ List.mem_cons_self c cs)
    have hcs : ':' ∉ cs := fun hmem => h (List.mem_cons_of_mem c hmem)
    simp only [splitAtColon, if_neg hc, ih hcs]

/-- Rebuilding a string from its character data is the identity. -/
theorem string_mk_data (s : String) : String.mk s.data = s := rfl

/-- C2: on a Variable whose type was never locked, the first `set(x)`
succeeds and locks the type to x's kind; a later `set(y)` with a different
underlying kind fails with the type-mismatch error and (the embedding being
functional, the failing call returns no updated variable) the stored value
is unchanged, so `get` at x's kind still returns x. -/
theorem c2_type_lock (v : Variable) (x y : Value)
    (hfresh : v.type_ = VariableType.NOT_SET) (hxy : y.kind ≠ x.kind) :
    v.set x = Except.ok { v with data_ := x, type_ := x.kind } ∧
    Variable.type { v with data_ := x, type_ := x.kind } = x.kind ∧
    Variable.set { v with data_ := x, type_ := x.kind } y =
      Except.error Err.typeMismatch ∧
    Variable.get? { v with data_ := x, type_ := x.kind } x.kind = some x := by
  refine ⟨?_, rfl, ?_, ?_⟩
  · simp [Variable.set, hfresh]
  · simp [Variable.set, hxy, Value.kind_ne_not_set]
  · simp [Variable.get?]

/-- C2 witness: a fresh Variable set to the int 5 locks to INT, rejects a
bool, and still holds 5. -/
theorem c2_type_lock_witness :
    Variable.set Variable.fresh (Value.vint 5) =
      Except.ok { name := "", data_ := Value.vint 5, type_ := VariableType.INT } ∧
    Variable.type { name := "", data_ := Value.vint 5, type_ := VariableType.INT } =
      VariableType.INT ∧
    Variable.set { name := "", data_ := Value.vint 5, type_ := VariableType.INT }
      (Value.vbool true) = Except.error Err.typeMismatch ∧
    Variable.get? { name := "", data_ := Value.vint 5, type_ := VariableType.INT }
      VariableType.INT = some (Value.vint 5) :=
  c2_type_lock Variable.fresh (Value.vint 5) (Value.vbool true) rfl (by decide)

/-- C5 counterexample: a freshly constructed Variable (on which `set` was
never called, witnessed by its NOT_SET lock tag) reports `type()` = VOID,
not the NOT_SET tag the claim requires. -/
theorem c5_counterexample :
    Variable.fresh.type_ = VariableType.NOT_SET ∧
    Variable.fresh.type = VariableType.VOID ∧
    Variable.fresh.type ≠ VariableType.NOT_SET := by
  refine ⟨rfl, rfl, by decide⟩

/-- C5 amended: a freshly constructed Variable reports `type()` = VOID (the
tag of the Void alternative it holds), not NOT_SET; for every Variable that
has been assigned, `type()` returns its locked type tag. -/
theorem c5_type_tag (v v' : Variable) (x : Value)
    (h : v.set x = Except.ok v') :
    Variable.fresh.type = VariableType.VOID ∧
    v'.type = v'.type_ ∧ v'.type_ = x.kind := by
  simp only [Variable.set] at h
  split at h
  · cases h
  · cases h; exact ⟨rfl, rfl, rfl⟩

/-- C5 witness: assigning the int 0 to a fresh Variable locks INT and
`type()` reports it. -/
theorem c5_type_tag_witness :
    Variable.fresh.type = VariableType.VOID ∧
    Variable.type { name := "", data_ := Value.vint 0, type_ := VariableType.INT } =
      Variable.type_ { name := "", data_ := Value.vint 0, type_ := VariableType.INT } ∧
    Variable.type_ { name := "", data_ := Value.vint 0, type_ := VariableType.INT } =
      (Value.vint 0).kind :=
  c5_type_tag Variable.fresh
    { name := "", data_ := Value.vint 0, type_ := VariableType.INT }
    (Value.vint 0) rfl

/-- C6 counterexample: parsing `x:float` (unknown type token) is accepted
but produces an unset Variable — Void payload, NOT_SET lock — not the
string default with type STRING the claim requires. -/
theorem c6_counterexample :
    Variable.parse Variable.fresh (YNode.scalar "x:float") =
      Except.ok { name := "x", data_ := Value.vvoid, type_ := VariableType.NOT_SET } ∧
    Value.vvoid ≠ Value.vstring "" ∧
    VariableType.NOT_SET ≠ VariableType.STRING := by
  refine ⟨rfl, by decide, by decide⟩

/-- C6 amended: a declaration `name:type` whose type token is not one of
int/bool/string is accepted (no failure) but produces a Variable named
`name` that is left unset: Void payload and no locked type, rather than the
string default. -/
theorem c6_unknown_type_unset (nm ty : String)
    (hnm : ':' ∉ nm.data) (h1 : ty ≠ "int") (h2 : ty ≠ "bool")
    (h3 : ty ≠ "string") :
    Variable.parse Variable.fresh (YNode.scalar (nm ++ ":" ++ ty)) =
      Except.ok { name := nm, data_ := Value.vvoid, type_ := VariableType.NOT_SET } := by
  have hsplit : splitAtColon (nm.data ++ ':' :: ty.data) = some (nm.data, ty.data) :=
    splitAtColon_append ty.data hnm
  simp [Variable.parse, readVal, hsplit, string_mk_data, Variable.fresh,
    String.data_append, h1, h2, h3]

/-- C6 witness: `x:float` parses to an unset Variable named x. -/
theorem c6_unknown_type_unset_witness :
    Variable.parse Variable.fresh (YNode.scalar "x:float") =
      Except.ok { name := "x", data_ := Value.vvoid, type_ := VariableType.NOT_SET } :=
  c6_unknown_type_unset "x" "float" (by decide) (by decide) (by decide) (by decide)

/-- C7: `name:int` parses to a Variable named `name` with locked type INT
and default 0; a bare `name` parses to locked STRING with default "";
`name:bool` to BOOL/false and `name:string` to STRING/"". -/
theorem c7_declaration_parse (nm : String) (h : ':' ∉ nm.data) :
    Variable.parse Variable.fresh (YNode.scalar (nm ++ ":int")) =
      Except.ok { name := nm, data_ := Value.vint 0, type_ := VariableType.INT } ∧
    Variable.parse Variable.fresh (YNode.scalar nm) =
      Except.ok { name := nm, data_ := Value.vstring "", type_ := VariableType.STRING } ∧
    Variable.parse Variable.fresh (YNode.scalar (nm ++ ":bool")) =
      Except.ok { name := nm, data_ := Value.vbool false, type_ := VariableType.BOOL } ∧
    Variable.parse Variable.fresh (YNode.scalar (nm ++ ":string")) =
      Except.ok { name := nm, data_ := Value.vstring "", type_ := VariableType.STRING } := by
  have hsplitInt : splitAtColon (nm.data ++ ':' :: ['i', 'n', 't']) =
      some (nm.data, ['i', 'n', 't']) := splitAtColon_append _ h
  have hsplitBool : splitAtColon (nm.data ++ ':' :: ['b', 'o', 'o', 'l']) =
      some (nm.data, ['b', 'o', 'o', 'l']) := splitAtColon_append _ h
  have hsplitStr : splitAtColon (nm.data ++ ':' :: ['s', 't', 'r', 'i', 'n', 'g']) =
      some (nm.data, ['s', 't', 'r', 'i', 'n', 'g']) := splitAtColon_append _ h
  have hbare : splitAtColon nm.data = none := splitAtColon_eq_none h
  refine ⟨?_, ?_, ?_, ?_⟩
  · simp [Variable.parse, readVal, hsplitInt, string_mk_data, Variable.fresh,
      Variable.set, String.data_append, Value.kind]
  · simp [Variable.parse, readVal, hbare, Variable.fresh, Variable.set, Value.kind]
  · simp [Variable.parse, readVal, hsplitBool, string_mk_data, Variable.fresh,
      Variable.set, String.data_append, Value.kind]
  · simp [Variable.parse, readVal, hsplitStr, string_mk_data, Variable.fresh,
      Variable.set, String.data_append, Value.kind]

/-- C7 witness: the four declaration forms at the concrete name x. -/
theorem c7_declaration_parse_witness :
    Variable.parse Variable.fresh (YNode.scalar "x:int") =
      Except.ok { name := "x", data_ := Value.vint 0, type_ := VariableType.INT } ∧
    Variable.parse Variable.fresh (YNode.scalar "x") =
      Except.ok { name := "x", data_ := Value.vstring "", type_ := VariableType.STRING } ∧
    Variable.parse Variable.fresh (YNode.scalar "x:bool") =
      Except.ok { name := "x", data_ := Value.vbool false, type_ := VariableType.BOOL } ∧
    Variable.parse Variable.fresh (YNode.scalar "x:string") =
      Except.ok { name := "x", data_ := Value.vstring "", type_ := VariableType.STRING } :=
  c7_declaration_parse "x" (by decide)

/-- C4: `validate` yields true exactly when the parsed root is a mapping
containing the `config`, `automata` and `version` keys, regardless of their
contents; on any other document it rejects by raising a check failure — it
never returns true there (indeed it never returns false either: RYML_CHECK
aborts). -/
theorem c4_validate_iff (root : YNode) :
    (AutomataValidator.validate root = Except.ok true ↔
      (root.isMap = true ∧ root.hasChild "config" = true ∧
        root.hasChild "automata" = true ∧ root.hasChild "version" = true)) ∧
    AutomataValidator.validate root ≠ Except.ok false := by
  unfold AutomataValidator.validate
  split_ifs with h1 h2 h3 h4 <;> simp_all

/-- C3 counterexample: the scenario document exactly as claimed — states
`idle` and `active` with empty `{}` bodies — does not load: `State::parse`
unconditionally dereferences the missing `inputs`/`outputs`/`variables`/
`code` children, which is a rapidyaml error, so no Automata is produced. -/
theorem c3_counterexample :
    Automata.parse Automata.init scenarioDocEmptyBodies =
      Except.error Err.invalidNode := rfl

/-- C3 amended: the claimed scenario holds once each state body carries the
`inputs`/`outputs`/`variables`/`code` sub-sections the parser demands
(empty sequences and an empty code scalar): the load succeeds and produces
a FOLDER automata rooted at /defs with states idle and active and one
transition go whose `from` designates the idle State and whose `to`
designates the active State. -/
theorem c3_scenario_amended :
    Automata.parse Automata.init scenarioDoc = Except.ok scenarioLoaded ∧
    scenarioLoaded.type = AutomataType.FOLDER ∧
    scenarioLoaded.rootPath = "/defs" ∧
    scenarioLoaded.states.map State.name = ["idle", "active"] ∧
    scenarioLoaded.transitions.map Transition.name = ["go"] ∧
    scenarioLoaded.transitions.map
      (fun t => t.from_.bind (fun i => (scenarioLoaded.states[i]?).map State.name)) =
      [some "idle"] ∧
    scenarioLoaded.transitions.map
      (fun t => t.to_.bind (fun i => (scenarioLoaded.states[i]?).map State.name)) =
      [some "active"] := by
  exact ⟨rfl, rfl, rfl, rfl, rfl, rfl, rfl⟩

/-- C1 counterexample: a well-formed document whose only transition names
the non-state `ghost` as its `from` loads without any error: the full
Automata is returned, with the transition present and its `from` reference
left unbound — no `UnresolvedStateReference` failure occurs. -/
theorem c1_counterexample :
    Automata.parse Automata.init ghostFromDoc = Except.ok ghostFromLoaded ∧
    ghostFromLoaded.states.map State.name = ["s1"] ∧
    "ghost" ∉ ghostFromLoaded.states.map State.name ∧
    ghostFromLoaded.transitions.map Transition.name = ["t1"] ∧
    ghostFromLoaded.transitions.map Transition.from_ = [none] := by
  exact ⟨rfl, rfl, by decide, rfl, rfl⟩

/-- C1 amended: loading does not fail on a transition whose `from`/`to`
name matches no parsed state — no `UnresolvedStateReference` exists in the
code.  In any successfully loaded Automata, a transition whose document
entry names an unmatched `from` (resp. `to`) state is present with that
reference left unbound. -/
theorem c1_unresolved_unbound (a a' : Automata) (node : YNode) (i : Nat)
    (t : Transition) (e : Option String × YNode)
    (h : Automata.parse a node = Except.ok a')
    (ht : a'.transitions[i]? = some t)
    (he : transitionEntryAt node i = some e) :
    (∀ fromName, readVal (e.2.findChild "from") = Except.ok fromName →
      (∀ s ∈ a'.states, s.name ≠ fromName) → t.from_ = none) ∧
    (∀ toName, readVal (e.2.findChild "to") = Except.ok toName →
      (∀ s ∈ a'.states, s.name ≠ toName) → t.to_ = none) := by
  obtain ⟨a1, a2, hv, hc, hg⟩ := parse_ok_decomp h
  obtain ⟨hps, hpt, _, _, _, _⟩ := parseVersion_ok_preserves hv
  obtain ⟨hcs, hct, _, _⟩ := parseConfig_ok_preserves hc
  obtain ⟨am, ham, hcase⟩ := parseGraph_ok_elim hg
  cases hcase with
  | inl hid =>
    rcases hid with ⟨_, rfl⟩
    rw [hct, hpt] at ht
    simp at ht
  | inr hrun =>
    obtain ⟨sts, ts, _, hsts, hts, rfl⟩ := hrun
    simp only at ht
    unfold parseTransitions at hts
    split at hts
    · cases hts
    · next es hes =>
      obtain ⟨tnNode, htnn, hesEq⟩ := childrenEntriesE_ok hes
      have he' : tnNode.childrenKV[i]? = some e := by
        unfold transitionEntryAt at he
        simp only [ham, htnn] at he
        exact he
      obtain ⟨e', hidx, hf⟩ := parseAll_ok_get hts i t ht
      rw [hesEq, he'] at hidx
      cases hidx
      obtain ⟨t0, fn0, tn0, htp, hfn0, htn0, htEq⟩ := parseOneTransition_elim hf
      subst htEq
      constructor
      · intro fromName hfn hnomem
        rw [hfn0] at hfn
        cases hfn
        simp only
        exact resolveIdx_eq_none (by simpa using hnomem)
      · intro toName htn hnomem
        rw [htn0] at htn
        cases htn
        simp only
        exact resolveIdx_eq_none (by simpa using hnomem)

/-- C1 witness: in the loaded ghostFromDoc, transition t1's `from`
(naming the unmatched `ghost`) is unbound. -/
theorem c1_unresolved_unbound_witness :
    Transition.from_
      { from_ := none, to_ := some 0,
        condition := { code := "true", returnType := VariableType.BOOL },
        triggered := none, body := none, name := "t1" } = none :=
  (c1_unresolved_unbound Automata.init ghostFromLoaded ghostFromDoc 0
    { from_ := none, to_ := some 0,
      condition := { code := "true", returnType := VariableType.BOOL },
      triggered := none, body := none, name := "t1" }
    (some "t1",
      YNode.map [("condition", YNode.scalar "true"),
                 ("from", YNode.scalar "ghost"), ("to", YNode.scalar "s1")])
    rfl rfl rfl).1 "ghost" rfl (by decide)

/-- C9 counterexample: a document whose `config` mapping has `type:
"weird"` (present, neither "inline" nor "folder") but no `name` entry fails
with the rapidyaml missing-node error raised while reading
`config["name"]` — which the parser reads before `type` — and not with
`UnknownAutomataType`. -/
theorem c9_counterexample :
    noNameBadTypeDoc.findChild "config" =
      some (YNode.map [("type", YNode.scalar "weird")]) ∧
    readVal ((YNode.map [("type", YNode.scalar "weird")]).findChild "type") =
      Except.ok "weird" ∧
    "weird" ≠ "inline" ∧ "weird" ≠ "folder" ∧
    Automata.parse Automata.init noNameBadTypeDoc =
      Except.error Err.invalidNode ∧
    Err.invalidNode ≠ Err.unknownAutomataType := by
  exact ⟨rfl, rfl, by decide, by decide, rfl, by decide⟩

/-- C9 amended: provided the document also carries the entries the parser
touches first — a `version` entry and a `config` mapping with a `name`
scalar — then a present config `type` equal to neither "inline" nor
"folder" makes the load fail with UnknownAutomataType; "folder" sets the
type to FOLDER and reads config `location` into `rootPath`; "inline" sets
INLINE. -/
theorem c9_config_type (a : Automata) (node c vn : YNode) (nm ts : String)
    (hv : node.findChild "version" = some vn)
    (hc : node.findChild "config" = some c)
    (hmap : c.isMap = true)
    (hnm : readVal (c.findChild "name") = Except.ok nm)
    (hts : readVal (c.findChild "type") = Except.ok ts) :
    ((ts ≠ "inline" ∧ ts ≠ "folder") →
      Automata.parse a node = Except.error Err.unknownAutomataType) ∧
    (∀ a', Automata.parse a node = Except.ok a' →
      (ts = "inline" → a'.type = AutomataType.INLINE) ∧
      (ts = "folder" → a'.type = AutomataType.FOLDER ∧
        readVal (c.findChild "location") = Except.ok a'.rootPath)) := by
  have hver : ∃ a1, Automata.parseVersion
      { a with states := [], transitions := [], variables_ := [] } node =
      Except.ok a1 := by
    unfold Automata.parseVersion
    rw [hv]
    cases vn <;> exact ⟨_, rfl⟩
  obtain ⟨a1, h1⟩ := hver
  constructor
  · rintro ⟨hi, hf⟩
    have h2 : Automata.parseConfig a1 node =
        Except.error Err.unknownAutomataType := by
      unfold Automata.parseConfig
      rw [hc]
      cases c with
      | scalar s => simp [YNode.isMap] at hmap
      | seq xs => simp [YNode.isMap] at hmap
      | map es =>
        simp only [hnm, hts]
        rw [if_neg hi, if_neg hf]
    unfold Automata.parse
    simp only [h1, h2]
  · intro a' h'
    obtain ⟨a1', a2', hv', hc', hg'⟩ := parse_ok_decomp h'
    rw [h1] at hv'
    injection hv' with h1eq
    subst h1eq
    unfold Automata.parseConfig at hc'
    rw [hc] at hc'
    cases c with
    | scalar s => simp [YNode.isMap] at hmap
    | seq xs => simp [YNode.isMap] at hmap
    | map es =>
      simp only [hnm, hts] at hc'
      obtain ⟨_, _, _, htype', hroot'⟩ := parseGraph_ok_meta hg'
      constructor
      · intro hi
        rw [if_pos hi] at hc'
        injection hc' with h2eq
        rw [htype', ← h2eq]
      · intro hf
        have hi : ts ≠ "inline" := by
          rw [hf]; decide
        rw [if_neg hi, if_pos hf] at hc'
        cases hloc : readVal ((YNode.map es).findChild "location") with
        | error er => rw [hloc] at hc'; cases hc'
        | ok loc =>
          rw [hloc] at hc'
          injection hc' with h2eq
          constructor
          · rw [htype', ← h2eq]
          · rw [hroot', ← h2eq]

/-- C9 witness: a document with config name `m` and type `weird` fails with
UnknownAutomataType. -/
theorem c9_config_type_witness :
    Automata.parse Automata.init badTypeDoc =
      Except.error Err.unknownAutomataType :=
  (c9_config_type Automata.init badTypeDoc
    (YNode.map [("name", YNode.scalar "m"), ("type", YNode.scalar "weird")])
    (YNode.scalar "1") "m" "weird" rfl rfl rfl rfl rfl).1
    ⟨by decide, by decide⟩

/-- The graph fields of a successful load are determined by the document
alone: the collections are cleared first, so nothing from the in-coming
automata can leak into them. -/
theorem parse_graph_fields {x y x' y' : Automata} {node : YNode}
    (hx : Automata.parse x node = Except.ok x')
    (hy : Automata.parse y node = Except.ok y') :
    x'.states = y'.states ∧ x'.transitions = y'.transitions ∧
      x'.variables_ = y'.variables_ := by
  obtain ⟨x1, x2, hxv, hxc, hxg⟩ := parse_ok_decomp hx
  obtain ⟨y1, y2, hyv, hyc, hyg⟩ := parse_ok_decomp hy
  obtain ⟨hx1s, hx1t, hx1v, _, _, _⟩ := parseVersion_ok_preserves hxv
  obtain ⟨hx2s, hx2t, hx2v, _⟩ := parseConfig_ok_preserves hxc
  obtain ⟨hy1s, hy1t, hy1v, _, _, _⟩ := parseVersion_ok_preserves hyv
  obtain ⟨hy2s, hy2t, hy2v, _⟩ := parseConfig_ok_preserves hyc
  obtain ⟨hxvar, _, _, _, _⟩ := parseGraph_ok_meta hxg
  obtain ⟨hyvar, _, _, _, _⟩ := parseGraph_ok_meta hyg
  have hvarx : x'.variables_ = [] := by
    rw [hxvar, hx2v, hx1v]
  have hvary : y'.variables_ = [] := by
    rw [hyvar, hy2v, hy1v]
  obtain ⟨am, ham, hcx⟩ := parseGraph_ok_elim hxg
  obtain ⟨am2, ham2, hcy⟩ := parseGraph_ok_elim hyg
  rw [ham] at ham2
  injection ham2 with hamEq
  subst hamEq
  cases hcx with
  | inl hxid =>
    obtain ⟨hnm, rfl⟩ := hxid
    cases hcy with
    | inl hyid =>
      obtain ⟨_, rfl⟩ := hyid
      refine ⟨?_, ?_, hvarx.trans hvary.symm⟩
      · rw [hx2s, hx1s, hy2s, hy1s]
      · rw [hx2t, hx1t, hy2t, hy1t]
    | inr hyrun =>
      obtain ⟨_, _, hm, _, _, _⟩ := hyrun
      rw [hnm] at hm
      cases hm
  | inr hxrun =>
    obtain ⟨sts, ts, hm, hsts, hts, rfl⟩ := hxrun
    cases hcy with
    | inl hyid =>
      obtain ⟨hnm, _⟩ := hyid
      rw [hm] at hnm
      cases hnm
    | inr hyrun =>
      obtain ⟨sts2, ts2, _, hsts2, hts2, rfl⟩ := hyrun
      rw [hsts] at hsts2
      injection hsts2 with hstsEq
      subst hstsEq
      rw [hts] at hts2
      injection hts2 with htsEq
      subst htsEq
      exact ⟨rfl, rfl, by simpa using hvarx.trans hvary.symm⟩

/-- C8: re-running the loader on the same document into the automata
produced by the first run clears and rebuilds everything, so the second run
yields the same `states`, `transitions` and `variables` — in particular the
same state/transition name sets and the same transition from/to reference
targets compared by state name — with nothing stale surviving. -/
theorem c8_reload_idempotent (a : Automata) (node : YNode) (a1 a2 : Automata)
    (h1 : Automata.parse a node = Except.ok a1)
    (h2 : Automata.parse a1 node = Except.ok a2) :
    a2.states = a1.states ∧ a2.transitions = a1.transitions ∧
      a2.variables_ = a1.variables_ ∧
      a2.states.map State.name = a1.states.map State.name ∧
      a2.transitions.map Transition.name = a1.transitions.map Transition.name ∧
      a2.transitions.map
          (fun t => t.from_.bind (fun i => (a2.states[i]?).map State.name)) =
        a1.transitions.map
          (fun t => t.from_.bind (fun i => (a1.states[i]?).map State.name)) ∧
      a2.transitions.map
          (fun t => t.to_.bind (fun i => (a2.states[i]?).map State.name)) =
        a1.transitions.map
          (fun t => t.to_.bind (fun i => (a1.states[i]?).map State.name)) := by
  obtain ⟨hs, ht, hv⟩ := parse_graph_fields h2 h1
  refine ⟨hs, ht, hv, ?_, ?_, ?_, ?_⟩ <;> simp only [hs, ht]

/-- C8 witness: reloading the scenario document into its own result
reproduces the same graph. -/
theorem c8_reload_idempotent_witness :
    scenarioLoaded.states = scenarioLoaded.states ∧
    scenarioLoaded.transitions = scenarioLoaded.transitions ∧
    scenarioLoaded.variables_ = scenarioLoaded.variables_ ∧
    scenarioLoaded.states.map State.name = scenarioLoaded.states.map State.name ∧
    scenarioLoaded.transitions.map Transition.name =
      scenarioLoaded.transitions.map Transition.name ∧
    scenarioLoaded.transitions.map
        (fun t => t.from_.bind (fun i => (scenarioLoaded.states[i]?).map State.name)) =
      scenarioLoaded.transitions.map
        (fun t => t.from_.bind (fun i => (scenarioLoaded.states[i]?).map State.name)) ∧
    scenarioLoaded.transitions.map
        (fun t => t.to_.bind (fun i => (scenarioLoaded.states[i]?).map State.name)) =
      scenarioLoaded.transitions.map
        (fun t => t.to_.bind (fun i => (scenarioLoaded.states[i]?).map State.name)) :=
  c8_reload_idempotent Automata.init scenarioDoc scenarioLoaded scenarioLoaded
    rfl rfl

/-- C10: in every successfully loaded automata, every parsed state body is
declared VOID, every parsed transition action (`triggered`) is declared
VOID, and every transition condition is overwritten to BOOL — the document
format offers no way to declare any other return type. -/
theorem c10_return_types (a a' : Automata) (node : YNode)
    (h : Automata.parse a node = Except.ok a') :
    (∀ s ∈ a'.states, s.body.returnType = VariableType.VOID) ∧
    (∀ t ∈ a'.transitions, t.condition.returnType = VariableType.BOOL ∧
      ∀ c, t.triggered = some c → c.returnType = VariableType.VOID) := by
  obtain ⟨a1, a2, hv, hc, hg⟩ := parse_ok_decomp h
  obtain ⟨hps, hpt, _, _, _, _⟩ := parseVersion_ok_preserves hv
  obtain ⟨hcs, hct, _, _⟩ := parseConfig_ok_preserves hc
  obtain ⟨am, ham, hcase⟩ := parseGraph_ok_elim hg
  cases hcase with
  | inl hid =>
    obtain ⟨_, rfl⟩ := hid
    constructor
    · intro s hs
      rw [hcs, hps] at hs
      simp at hs
    · intro t htm
      rw [hct, hpt] at htm
      simp at htm
  | inr hrun =>
    obtain ⟨sts, ts, _, hsts, hts, rfl⟩ := hrun
    constructor
    · intro s hs
      simp only at hs
      unfold parseStates at hsts
      split at hsts
      · cases hsts
      · obtain ⟨x, _, hx⟩ := parseAll_ok_mem hsts s hs
        exact (State.parse_body_void hx).1
    · intro t htm
      simp only at htm
      unfold parseTransitions at hts
      split at hts
      · cases hts
      · obtain ⟨x, _, hx⟩ := parseAll_ok_mem hts t htm
        obtain ⟨t0, fn, tn, htp, _, _, rfl⟩ := parseOneTransition_elim hx
        obtain ⟨hcond, htrig, _, _⟩ := Transition.parse_shape htp
        exact ⟨hcond, fun c0 hc0 => htrig c0 hc0⟩

/-- C10 witness: in the loaded scenario, the idle state's body is VOID and
the go transition's condition is BOOL. -/
theorem c10_return_types_witness :
    (emptyLoadedState "idle").body.returnType = VariableType.VOID ∧
    Code.returnType
      (Transition.condition
        { from_ := some 0, to_ := some 1,
          condition := { code := "true", returnType := VariableType.BOOL },
          triggered := none, body := none, name := "go" }) =
      VariableType.BOOL :=
  ⟨(c10_return_types Automata.init scenarioLoaded scenarioDoc rfl).1
      (emptyLoadedState "idle") (by decide),
    ((c10_return_types Automata.init scenarioLoaded scenarioDoc rfl).2
      { from_ := some 0, to_ := some 1,
        condition := { code := "true", returnType := VariableType.BOOL },
        triggered := none, body := none, name := "go" } (by decide)).1⟩

end Aetherium
